import Mathlib

/-!
Verification development for the static-file HTTP server in src/server.py
(class HttpServer).  The per-connection handler, path resolver and response
writer are embedded as executable Lean functions; the filesystem, the socket,
the clock, the MIME table (mimetypes.guess_type) and percent-decoding
(urllib.parse.unquote) are external collaborators and are passed in as
explicit parameters.  Machine-level effects (socket writes, file open/close,
settimeout, time.sleep) are recorded in result records so that the theorems
can speak about the observable trace of one connection.
-/

namespace WebServer

/-! ### Python string and posixpath primitives, over lists of characters -/

/-- Python str.split(sep) for a one-character separator: keeps empty fields,
    so splitting the empty list yields one empty field. -/
def splitCh (c : Char) : List Char → List (List Char)
  | [] => [[]]
  | a :: rest =>
    if a = c then [] :: splitCh c rest
    else
      match splitCh c rest with
      | [] => [[a]]
      | g :: gs => (a :: g) :: gs

/-- Python str.split(' ') on a String, the form used at server.py line 71. -/
def pySplit (c : Char) (s : String) : List String :=
  (splitCh c s.toList).map String.mk

/-- Python s[1:] — drop exactly the first character. -/
def pyTail (s : String) : String :=
  String.mk s.toList.tail

/-- Python str.upper(), ASCII letters. -/
def pyUpper (s : String) : String :=
  String.mk (s.toList.map Char.toUpper)

/-- Python str.lower(), ASCII letters. -/
def pyLower (s : String) : String :=
  String.mk (s.toList.map Char.toLower)

/-- Last index of character c in the list, or -1 when absent
    (Python str.rfind). -/
def lastIdxOf (l : List Char) (c : Char) : Int :=
  (l.foldl (fun st ch => (st.1 + 1, if ch = c then st.1 else st.2))
    ((0 : Int), (-1 : Int))).2

/-- Extension part of os.path.splitext (posixpath): the suffix from the last
    dot of the final path component, unless every character of the component
    before that dot is itself a dot (leading dots do not start an extension). -/
def splitextExt (p : String) : String :=
  let l := p.toList
  let si := lastIdxOf l '/'
  let di := lastIdxOf l '.'
  if si < di then
    if ((l.drop (si + 1).toNat).take (di - si - 1).toNat).any (fun ch => ch != '.') then
      String.mk (l.drop di.toNat)
    else ""
  else ""

/-- os.path.join (posixpath) restricted to two arguments, as called at
    server.py line 125. -/
def posixJoin (a b : String) : String :=
  if b.toList.take 1 = ['/'] then b
  else if a = "" ∨ a.toList.getLast? = some '/' then a ++ b
  else a ++ "/" ++ b

/-- os.path.normpath (posixpath): collapse empty and dot components, resolve
    dot-dot components against preceding ones, preserve a double (but not
    triple) leading slash, and map the empty result to a single dot. -/
def normpath (path : String) : String :=
  if path = "" then "."
  else
    let l := path.toList
    let initialSlashes : Nat :=
      if l.take 1 = ['/'] then
        if l.take 2 = ['/', '/'] ∧ l.take 3 ≠ ['/', '/', '/'] then 2 else 1
      else 0
    let comps := splitCh '/' l
    let newComps := comps.foldl (fun acc comp =>
      if comp = [] ∨ comp = ['.'] then acc
      else if comp ≠ ['.', '.'] ∨ (initialSlashes = 0 ∧ acc = [])
          ∨ acc.getLast? = some ['.', '.'] then acc ++ [comp]
      else if acc ≠ [] then acc.dropLast
      else acc) []
    let joined := String.intercalate "/" (newComps.map String.mk)
    let result :=
      if initialSlashes = 2 then "//" ++ joined
      else if initialSlashes = 1 then "/" ++ joined
      else joined
    if result = "" then "." else result

/-! ### The filesystem, as the server observes it through os and open -/

/-- External filesystem state: os.path.exists, os.access(..., os.R_OK),
    whether open(path, 'rb') succeeds, and the bytes of the file (also the
    value of os.path.getsize). These are independent observations, exactly as
    the four separate system calls in the code are. -/
structure FS where
  pathExists : String → Bool
  readable : String → Bool
  openOk : String → Bool
  contents : String → List Nat

/-! ### HttpServer constants and pure helpers (server.py lines 12-22, 113-130) -/

def DEFAULT_FILE : String := "index.html"

def BAD_REQUEST : String := "error/400.html"

def FORBIDDEN : String := "error/403.html"

def FILE_NOT_FOUND : String := "error/404.html"

def METHOD_NOT_SUPPORTED : String := "error/501.html"

/-- Module-level helper get_file_type (server.py lines 12-14). -/
def get_file_type (filepath : String) : String :=
  pyLower (splitextExt filepath)

/-- The literal set of supported extensions from server.py line 116. -/
def supportedTypes : List String :=
  [".pdf", ".jpeg", ".jpg", ".png", ".txt", ".gif", ".html", ".mp4", ".json",
   "", ".js", ".css"]

/-- HttpServer.is_file_supported (server.py lines 113-117). -/
def is_file_supported (filepath : String) : Bool :=
  let fileType := pyLower (splitextExt filepath)
  supportedTypes.contains fileType

/-- HttpServer.get_file_path (server.py lines 119-130): substitute
    DEFAULT_FILE for the bare slash target, otherwise drop the first
    character; join onto the document root, normalize, and answer the
    candidate only when it exists. -/
def get_file_path (ex : String → Bool) (documentRoot fileName : String) :
    Option String :=
  let fn := if fileName = "/" then DEFAULT_FILE else pyTail fileName
  let filePath := normpath (posixJoin documentRoot fn)
  if ex filePath then some filePath else none

/-- Modelled from the spec wording of the resolver contract (section 4.3 /
    claim C1): strip exactly one LEADING PATH SEPARATOR from the raw target
    (rather than the first character whatever it is), then join, normalize
    and check existence as the code does.  Kept separate so that it can be
    compared against get_file_path, which is the authority. -/
def resolve_spec (ex : String → Bool) (documentRoot fileName : String) :
    Option String :=
  let fn := if fileName = "/" then DEFAULT_FILE
            else if fileName.toList.take 1 = ['/'] then pyTail fileName
            else fileName
  let cand := normpath (posixJoin documentRoot fn)
  if ex cand then some cand else none

/-! ### The response writer HttpServer.serve_file (server.py lines 132-163) -/

/-- Result trace of one serve_file call.  pathArg records the path handed to
    open; header is the single atomic header-block write (line 150), when it
    happened; body lists the 4096-byte chunk writes in order; timeoutSet
    records the HTTP/1.0 settimeout call (line 154); fileClosed whether
    error_file.close() ran on an opened handle; raised whether an exception
    escaped serve_file. -/
structure ServeResult where
  pathArg : String
  header : Option String
  body : List (List Nat)
  timeoutSet : Bool
  fileClosed : Bool
  raised : Bool
deriving DecidableEq, Repr

/-- Successive chunks of error_file.read(4096) (server.py lines 156-159),
    written with structural fuel so that it evaluates in the kernel; every
    loop iteration consumes at least one byte, so fuel equal to the byte
    count is always enough (chunkify below instantiates it that way, and
    chunkifyAux_join proves the loop drains the whole file under that
    fuel). -/
def chunkifyAux : Nat → List Nat → List (List Nat)
  | 0, _ => []
  | _, [] => []
  | fuel + 1, l => l.take 4096 :: chunkifyAux fuel (l.drop 4096)

/-- The chunk sequence the read loop produces for a whole file. -/
def chunkify (l : List Nat) : List (List Nat) :=
  chunkifyAux l.length l

/-- The while loop of server.py lines 157-159 against a socket that accepts
    write number n iff sockOk n (the header write is number 0, chunk i is
    write i+1): returns the chunks actually written and whether the loop
    finished without an exception. -/
def writeChunks (sockOk : Nat → Bool) : Nat → List (List Nat) →
    List (List Nat) × Bool
  | _, [] => ([], true)
  | k, c :: rest =>
    if sockOk k then
      let r := writeChunks sockOk (k + 1) rest
      (c :: r.1, r.2)
    else ([], false)

/-- HttpServer.serve_file (server.py lines 132-163).  guess stands for
    mimetypes.guess_type (external MIME table); Python formats a missing
    mapping as the literal text None in the header (line 145).  date stands
    for get_current_date() (the wall clock).  When open fails, the except
    block logs, and then the finally block evaluates error_file.close() with
    error_file never assigned, so serve_file raises (UnboundLocalError) with
    nothing written and no handle to close.  When a write fails mid-stream,
    the except block swallows the error and the finally block closes the
    handle. -/
def serve_file (fs : FS) (guess : String → Option String) (date : String)
    (sockOk : Nat → Bool) (path responsecode httpVersion : String) :
    ServeResult :=
  if fs.openOk path then
    let contentType := match guess path with
      | some t => t
      | none => "None"
    let headers := String.intercalate "\r\n"
      [httpVersion ++ " " ++ responsecode,
       "Server: Python HTTP Server",
       "Date: " ++ date,
       "Content-type: " ++ contentType,
       "Content-length: " ++ toString (fs.contents path).length,
       "",
       ""]
    if sockOk 0 then
      let w := writeChunks sockOk 1 (chunkify (fs.contents path))
      { pathArg := path, header := some headers, body := w.1,
        timeoutSet := httpVersion == "HTTP/1.0", fileClosed := true,
        raised := false }
    else
      { pathArg := path, header := none, body := [],
        timeoutSet := false, fileClosed := true, raised := false }
  else
    { pathArg := path, header := none, body := [],
      timeoutSet := false, fileClosed := false, raised := true }

/-! ### The per-connection handler HttpServer.run (server.py lines 63-111) -/

/-- The five response classes of the server; methodNotSupported corresponds
    to the 501 path (server.py lines 177-179), which run never calls. -/
inductive Outcome
  | ok
  | badRequest
  | notFound
  | forbidden
  | methodNotSupported
deriving DecidableEq, Repr

/-- The fixed error asset each non-OK outcome is served from (the class
    constants of server.py lines 19-22). -/
def errorAsset : Outcome → Option String
  | .ok => none
  | .badRequest => some BAD_REQUEST
  | .notFound => some FILE_NOT_FOUND
  | .forbidden => some FORBIDDEN
  | .methodNotSupported => some METHOD_NOT_SUPPORTED

/-- Result trace of one run() call.  context is the value interpolated into
    the error log line (visited_url at line 74, http_method at line 82,
    file_name at lines 87 and 91); sleptDrain records the HTTP/1.0
    time.sleep(2) at line 105; closed records the finally-block
    close_connection(), which always runs. -/
structure RunResult where
  outcome : Outcome
  context : String
  serve : ServeResult
  sleptDrain : Bool
  closed : Bool
deriving DecidableEq, Repr

/-- The body of HttpServer.run from line 81 on, once a method token and a
    raw target token have been parsed (server.py lines 81-106), as a
    function of those two tokens.  unquote stands for urllib.parse.unquote,
    applied to the raw target at line 77.  The error helpers bad_request,
    file_not_found and file_forbidden (lines 165-175) call serve_file with
    the Python default http_version, the literal HTTP/1.1.  An exception
    escaping serve_file (its open-failure path) is caught by the except
    block of run, and the HTTP/1.0 sleep at line 105 is then skipped. -/
def handleRequest (fs : FS) (unquote : String → String)
    (guess : String → Option String) (date : String) (sockOk : Nat → Bool)
    (documentRoot protocol httpMethod rawTarget : String) : RunResult :=
  let fileName := unquote rawTarget
  if pyUpper httpMethod != "GET" || !is_file_supported fileName then
    { outcome := .badRequest, context := httpMethod,
      serve := serve_file fs guess date sockOk BAD_REQUEST "400 BadRequest"
        "HTTP/1.1",
      sleptDrain := false, closed := true }
  else
    match get_file_path fs.pathExists documentRoot fileName with
    | none =>
      { outcome := .notFound, context := fileName,
        serve := serve_file fs guess date sockOk FILE_NOT_FOUND
          "404 FileNotFound" "HTTP/1.1",
        sleptDrain := false, closed := true }
    | some filePath =>
      if !fs.readable filePath then
        { outcome := .forbidden, context := fileName,
          serve := serve_file fs guess date sockOk FORBIDDEN "403 Forbidden"
            "HTTP/1.1",
          sleptDrain := false, closed := true }
      else
        let httpVersion := "HTTP/" ++ protocol
        let sr := serve_file fs guess date sockOk filePath "200 OK"
          httpVersion
        { outcome := .ok, context := "", serve := sr,
          sleptDrain := !sr.raised && (httpVersion == "HTTP/1.0"),
          closed := true }

/-- HttpServer.run (server.py lines 63-111) on the request line returned by
    in_file.readline() (terminator included, exactly as readline yields it):
    split on the space character; with fewer than two parts respond
    BadRequest with the raw line as context (lines 72-75); otherwise hand
    parts 0 and 1 to the body above.  The finally block closes the
    connection on every path. -/
def run (fs : FS) (unquote : String → String) (guess : String → Option String)
    (date : String) (sockOk : Nat → Bool)
    (documentRoot protocol rawLine : String) : RunResult :=
  let requestParts := pySplit ' ' rawLine
  if requestParts.length < 2 then
    { outcome := .badRequest, context := rawLine,
      serve := serve_file fs guess date sockOk BAD_REQUEST "400 BadRequest"
        "HTTP/1.1",
      sleptDrain := false, closed := true }
  else
    handleRequest fs unquote guess date sockOk documentRoot protocol
      (requestParts.headD "") (requestParts.getD 1 "")

/-- HttpServer.get_current_date (server.py lines 181-182): the strftime
    pattern of the code applied to a broken-down UTC instant. -/
def pad2 (n : Nat) : String :=
  if n < 10 then "0" ++ toString n else toString n

def dayNames : List String :=
  ["Mon", "Tue", "Wed", "Thu", "Fri", "Sat", "Sun"]

def monthNames : List String :=
  ["Jan", "Feb", "Mar", "Apr", "May", "Jun", "Jul", "Aug", "Sep", "Oct",
   "Nov", "Dec"]

structure UtcTime where
  weekday : Fin 7
  day : Nat
  month : Fin 12
  year : Nat
  hour : Nat
  minute : Nat
  second : Nat

def get_current_date (t : UtcTime) : String :=
  dayNames.getD t.weekday "" ++ ", " ++ pad2 t.day ++ " "
    ++ monthNames.getD t.month "" ++ " " ++ toString t.year ++ " "
    ++ pad2 t.hour ++ ":" ++ pad2 t.minute ++ ":" ++ pad2 t.second ++ " GMT"

/-- Whether the string pre is a character-wise prefix of s; used to state
    that a resolved path lies under (starts with) a document root. -/
def startsWithStr (pre s : String) : Bool :=
  List.isPrefixOf pre.toList s.toList

/-! ### Concrete fixtures used by witness and counterexample theorems -/

/-- A filesystem holding exactly one servable file /srv/x with two bytes;
    everything is readable and openable. -/
def fsX : FS :=
  { pathExists := fun p => p == "/srv/x"
    readable := fun _ => true
    openOk := fun _ => true
    contents := fun _ => [1, 2] }

/-- A filesystem on which only the path /srv exists. -/
def fsRootOnly : FS :=
  { pathExists := fun p => p == "/srv"
    readable := fun _ => true
    openOk := fun _ => true
    contents := fun _ => [] }

/-- A filesystem with no files at all: nothing exists and open always
    fails. -/
def fsClosed : FS :=
  { pathExists := fun _ => false
    readable := fun _ => false
    openOk := fun _ => false
    contents := fun _ => [] }

/-- An existence test recognising only /srv/a.txt. -/
def exSrvA : String → Bool := fun p => p == "/srv/a.txt"

/-- A MIME table with no mappings at all. -/
def guessNone : String → Option String := fun _ => none

/-- A MIME table answering text/plain for every path. -/
def guessPlain : String → Option String := fun _ => some "text/plain"

/-- A socket that accepts every write. -/
def sockAlways : Nat → Bool := fun _ => true

/-- Monday, 01 Jan 2024 00:00:00 UTC. -/
def timeJan : UtcTime := ⟨0, 1, 0, 2024, 0, 0, 0⟩

/-! ### Helper lemmas shared by the claim theorems -/

theorem list_len2 {α : Type} :
    ∀ (l : List α), 2 ≤ l.length → ∃ a b t, l = a :: b :: t
  | a :: b :: t, _ => ⟨a, b, t, rfl⟩
  | [], h => absurd h (by simp)
  | [a], h => absurd h (by simp)

theorem chunkifyAux_join :
    ∀ (fuel : Nat) (l : List Nat), l.length ≤ fuel →
      (chunkifyAux fuel l).flatten = l := by
  intro fuel
  induction fuel with
  | zero =>
    intro l hl
    have : l = [] := List.length_eq_zero.mp (Nat.le_zero.mp hl)
    subst this
    rfl
  | succ n ih =>
    intro l hl
    cases l with
    | nil => rfl
    | cons a rest =>
      simp only [chunkifyAux, List.flatten_cons]
      rw [ih]
      · exact List.take_append_drop 4096 (a :: rest)
      · simp only [List.length_drop, List.length_cons] at hl ⊢
        omega

theorem chunkify_join (l : List Nat) : (chunkify l).flatten = l :=
  chunkifyAux_join l.length l (Nat.le_refl _)

theorem chunkifyAux_mem :
    ∀ (fuel : Nat) (l c : List Nat), c ∈ chunkifyAux fuel l →
      c ≠ [] ∧ c.length ≤ 4096 := by
  intro fuel
  induction fuel with
  | zero => intro l c h; simp [chunkifyAux] at h
  | succ n ih =>
    intro l c h
    cases l with
    | nil => simp [chunkifyAux] at h
    | cons a rest =>
      simp only [chunkifyAux, List.mem_cons] at h
      rcases h with h | h
      · subst h
        refine ⟨by simp [List.take_eq_nil_iff], ?_⟩
        rw [List.length_take]
        exact min_le_left _ _
      · exact ih _ _ h

theorem chunkify_mem (l c : List Nat) (h : c ∈ chunkify l) :
    c ≠ [] ∧ c.length ≤ 4096 :=
  chunkifyAux_mem l.length l c h

theorem writeChunks_all (sockOk : Nat → Bool) (hs : ∀ n, sockOk n = true) :
    ∀ (k : Nat) (l : List (List Nat)), writeChunks sockOk k l = (l, true) := by
  intro k l
  induction l generalizing k with
  | nil => rfl
  | cons c rest ih => simp [writeChunks, hs k, ih]

theorem serve_file_header_eq (fs : FS) (guess : String → Option String)
    (date : String) (sockOk : Nat → Bool) (path rc v : String)
    (hopen : fs.openOk path = true) (hsock : sockOk 0 = true) :
    (serve_file fs guess date sockOk path rc v).header =
      some (v ++ " " ++ rc ++ "\r\n" ++ "Server: Python HTTP Server" ++ "\r\n"
        ++ "Date: " ++ date ++ "\r\n"
        ++ "Content-type: " ++ (guess path).getD "None" ++ "\r\n"
        ++ "Content-length: " ++ toString (fs.contents path).length
        ++ "\r\n" ++ "\r\n") := by
  have h1 : (serve_file fs guess date sockOk path rc v).header =
      some (String.intercalate "\r\n"
        [v ++ " " ++ rc,
         "Server: Python HTTP Server",
         "Date: " ++ date,
         "Content-type: " ++ (match guess path with
           | some t => t
           | none => "None"),
         "Content-length: " ++ toString (fs.contents path).length,
         "",
         ""]) := by
    simp only [serve_file, hopen, hsock, if_true, Bool.true_eq]
  rw [h1]
  cases hg : guess path <;>
    simp only [String.intercalate, String.intercalate.go, Option.getD_some,
      Option.getD_none, String.append_assoc, String.append_empty,
      String.empty_append]

theorem serve_file_pathArg (fs : FS) (guess : String → Option String)
    (date : String) (sockOk : Nat → Bool) (path rc v : String) :
    (serve_file fs guess date sockOk path rc v).pathArg = path := by
  by_cases ho : fs.openOk path <;> by_cases hs : sockOk 0 <;>
    simp [serve_file, ho, hs]

theorem serve_file_timeoutSet (fs : FS) (guess : String → Option String)
    (date : String) (sockOk : Nat → Bool) (path rc v : String) :
    (serve_file fs guess date sockOk path rc v).timeoutSet =
      (fs.openOk path && sockOk 0 && (v == "HTTP/1.0")) := by
  by_cases ho : fs.openOk path <;> by_cases hs : sockOk 0 <;>
    simp [serve_file, ho, hs]

theorem serve_file_raised (fs : FS) (guess : String → Option String)
    (date : String) (sockOk : Nat → Bool) (path rc v : String) :
    (serve_file fs guess date sockOk path rc v).raised = !fs.openOk path := by
  by_cases ho : fs.openOk path <;> by_cases hs : sockOk 0 <;>
    simp [serve_file, ho, hs]

theorem serve_file_open_fail (fs : FS) (guess : String → Option String)
    (date : String) (sockOk : Nat → Bool) (path rc v : String)
    (h : fs.openOk path = false) :
    serve_file fs guess date sockOk path rc v =
      { pathArg := path, header := none, body := [], timeoutSet := false,
        fileClosed := false, raised := true } := by
  simp [serve_file, h]

theorem serve_file_header_version (fs : FS) (guess : String → Option String)
    (date : String) (sockOk : Nat → Bool) (path rc v : String) :
    ∀ h, (serve_file fs guess date sockOk path rc v).header = some h →
      ∃ rest, h = v ++ " " ++ rest := by
  intro h hh
  by_cases ho : fs.openOk path
  · by_cases hs : sockOk 0
    · rw [serve_file_header_eq fs guess date sockOk path rc v ho hs] at hh
      refine ⟨rc ++ "\r\n" ++ "Server: Python HTTP Server" ++ "\r\n"
        ++ "Date: " ++ date ++ "\r\n"
        ++ "Content-type: " ++ (guess path).getD "None" ++ "\r\n"
        ++ "Content-length: " ++ toString (fs.contents path).length
        ++ "\r\n" ++ "\r\n", ?_⟩
      have := Option.some.inj hh
      rw [← this]
      simp [String.append_assoc]
    · simp [serve_file, ho, hs] at hh
  · simp [serve_file, ho] at hh

theorem run_short (fs : FS) (u : String → String)
    (g : String → Option String) (d : String) (s : Nat → Bool)
    (root proto rawLine : String)
    (h : (pySplit ' ' rawLine).length < 2) :
    run fs u g d s root proto rawLine =
      { outcome := Outcome.badRequest, context := rawLine,
        serve := serve_file fs g d s BAD_REQUEST "400 BadRequest" "HTTP/1.1",
        sleptDrain := false, closed := true } := by
  simp only [run]
  rw [if_pos h]

theorem run_two (fs : FS) (u : String → String)
    (g : String → Option String) (d : String) (s : Nat → Bool)
    (root proto rawLine : String)
    (h : ¬ (pySplit ' ' rawLine).length < 2) :
    run fs u g d s root proto rawLine =
      handleRequest fs u g d s root proto ((pySplit ' ' rawLine).headD "")
        ((pySplit ' ' rawLine).getD 1 "") := by
  simp only [run]
  rw [if_neg h]

theorem handleRequest_gate_fail (fs : FS) (u : String → String)
    (g : String → Option String) (d : String) (s : Nat → Bool)
    (root proto m r : String)
    (hg : (pyUpper m != "GET" || !is_file_supported (u r)) = true) :
    handleRequest fs u g d s root proto m r =
      { outcome := Outcome.badRequest, context := m,
        serve := serve_file fs g d s BAD_REQUEST "400 BadRequest" "HTTP/1.1",
        sleptDrain := false, closed := true } := by
  simp only [handleRequest]
  rw [if_pos hg]

theorem handleRequest_notFound (fs : FS) (u : String → String)
    (g : String → Option String) (d : String) (s : Nat → Bool)
    (root proto m r : String)
    (hg : (pyUpper m != "GET" || !is_file_supported (u r)) = false)
    (hres : get_file_path fs.pathExists root (u r) = none) :
    handleRequest fs u g d s root proto m r =
      { outcome := Outcome.notFound, context := u r,
        serve := serve_file fs g d s FILE_NOT_FOUND "404 FileNotFound"
          "HTTP/1.1",
        sleptDrain := false, closed := true } := by
  simp only [handleRequest]
  rw [if_neg (by simp [hg]), hres]

theorem handleRequest_forbidden (fs : FS) (u : String → String)
    (g : String → Option String) (d : String) (s : Nat → Bool)
    (root proto m r fp : String)
    (hg : (pyUpper m != "GET" || !is_file_supported (u r)) = false)
    (hres : get_file_path fs.pathExists root (u r) = some fp)
    (hrd : fs.readable fp = false) :
    handleRequest fs u g d s root proto m r =
      { outcome := Outcome.forbidden, context := u r,
        serve := serve_file fs g d s FORBIDDEN "403 Forbidden" "HTTP/1.1",
        sleptDrain := false, closed := true } := by
  simp only [handleRequest]
  rw [if_neg (by simp [hg]), hres]
  simp [hrd]

theorem handleRequest_ok (fs : FS) (u : String → String)
    (g : String → Option String) (d : String) (s : Nat → Bool)
    (root proto m r fp : String)
    (hg : (pyUpper m != "GET" || !is_file_supported (u r)) = false)
    (hres : get_file_path fs.pathExists root (u r) = some fp)
    (hrd : fs.readable fp = true) :
    handleRequest fs u g d s root proto m r =
      { outcome := Outcome.ok, context := "",
        serve := serve_file fs g d s fp "200 OK" ("HTTP/" ++ proto),
        sleptDrain := !(serve_file fs g d s fp "200 OK"
          ("HTTP/" ++ proto)).raised && ("HTTP/" ++ proto == "HTTP/1.0"),
        closed := true } := by
  simp only [handleRequest]
  rw [if_neg (by simp [hg]), hres]
  simp [hrd]

theorem gate_false_iff (m target : String) :
    (pyUpper m != "GET" || !is_file_supported target) = false ↔
      (pyUpper m = "GET" ∧ is_file_supported target = true) := by
  constructor
  · intro h
    rcases Bool.or_eq_false_iff.mp h with ⟨h1, h2⟩
    exact ⟨by simpa using h1, by simpa using h2⟩
  · intro ⟨h1, h2⟩
    simp [h1, h2]

end WebServer

namespace WebServer

/-! ### Claim C1 — the path resolver -/

/-- C1 counterexample: the claim says the resolver strips exactly one leading
    PATH SEPARATOR from every raw target other than the bare slash;
    get_file_path instead drops the first character whatever it is.  On the
    target a (no leading separator), against root /srv on a filesystem where
    only /srv itself exists, the claimed algorithm (resolve_spec) answers
    none while the code answers some /srv: the dropped character a leaves the
    empty remainder, which joins and normalizes back to the root. -/
theorem c1_counterexample :
    "a" ≠ "/" ∧
    get_file_path fsRootOnly.pathExists "/srv" "a" = some "/srv" ∧
    resolve_spec fsRootOnly.pathExists "/srv" "a" = none := by
  refine ⟨by decide, by decide, by decide⟩

/-- C1 (amended): for every raw target other than the bare slash the
    resolver drops exactly the FIRST CHARACTER (which is the leading path
    separator whenever the target starts with one), joins the remainder onto
    the document root with os.path.join, normalizes with os.path.normpath,
    and returns the candidate iff it exists; on targets that do start with a
    separator this coincides with the behaviour worded in the claim
    (resolve_spec); the bare slash target substitutes index.html, so its
    candidate is always the normalized join of the root and index.html; and
    every returned path exists on the filesystem. -/
theorem c1_resolver_amended (ex : String → Bool) (root t : String) :
    (t ≠ "/" →
      get_file_path ex root t =
        (if ex (normpath (posixJoin root (pyTail t)))
         then some (normpath (posixJoin root (pyTail t))) else none)) ∧
    (t.toList.take 1 = ['/'] →
      get_file_path ex root t = resolve_spec ex root t) ∧
    (get_file_path ex root "/" =
      (if ex (normpath (posixJoin root DEFAULT_FILE))
       then some (normpath (posixJoin root DEFAULT_FILE)) else none)) ∧
    (∀ p, get_file_path ex root t = some p → ex p = true) := by
  refine ⟨?_, ?_, ?_, ?_⟩
  · intro ht
    simp [get_file_path, ht]
  · intro hs
    by_cases ht : t = "/"
    · subst ht; rfl
    · have hs2 : List.take 1 t.data = ['/'] := hs
      simp [get_file_path, resolve_spec, ht, hs2]
  · rfl
  · intro p hp
    simp only [get_file_path] at hp
    by_cases hex :
        ex (normpath (posixJoin root (if t = "/" then DEFAULT_FILE else pyTail t))) = true
    · rw [if_pos hex] at hp
      injection hp with h
      exact h ▸ hex
    · rw [if_neg hex] at hp
      exact absurd hp (by simp)

/-! ### Claim C3 — dot-dot traversal escapes the document root -/

/-- C3: there is a raw target containing a dot-dot segment for which
    get_file_path returns an existing path that does not lie under the
    document root: /../secret.txt against root /srv/www resolves to
    /srv/secret.txt, outside /srv/www. -/
theorem c3_traversal_escapes_root :
    ∃ (ex : String → Bool) (root target p : String),
      (pySplit '/' target).contains ".." = true ∧
      get_file_path ex root target = some p ∧
      ex p = true ∧
      startsWithStr root p = false := by
  refine ⟨fun q => q == "/srv/secret.txt", "/srv/www", "/../secret.txt",
    "/srv/secret.txt", by decide, by decide, by decide, by decide⟩

end WebServer

namespace WebServer

/-- C1 witness: at the separator-prefixed target /a.txt the amended theorem
    applies and the code agrees with the claim wording, both resolving to
    /srv/a.txt. -/
theorem c1_resolver_amended_witness :
    get_file_path exSrvA "/srv" "/a.txt" = resolve_spec exSrvA "/srv" "/a.txt" :=
  (c1_resolver_amended exSrvA "/srv" "/a.txt").2.1 (by decide)

/-! ### Claim C4 — the emitted header block -/

/-- C4: whenever serve_file opens the file and the header write goes
    through, the single atomic header write is exactly the status line
    (protocol version, space, status), the fixed Server header, the Date
    header carrying the strftime-formatted UTC clock value, the Content-type
    header (the text None when the MIME table has no mapping, never an
    error), and the Content-length header equal to the decimal byte size of
    the file, CRLF-separated and closed by a blank line. -/
theorem c4_header_block (fs : FS) (guess : String → Option String)
    (t : UtcTime) (sockOk : Nat → Bool) (path rc v : String)
    (hopen : fs.openOk path = true) (hsock : sockOk 0 = true) :
    (serve_file fs guess (get_current_date t) sockOk path rc v).header =
      some (v ++ " " ++ rc ++ "\r\n" ++ "Server: Python HTTP Server" ++ "\r\n"
        ++ "Date: " ++ get_current_date t ++ "\r\n"
        ++ "Content-type: " ++ (guess path).getD "None" ++ "\r\n"
        ++ "Content-length: " ++ toString (fs.contents path).length
        ++ "\r\n" ++ "\r\n") :=
  serve_file_header_eq fs guess (get_current_date t) sockOk path rc v hopen
    hsock

/-- C4 witness: the concrete header block for the two-byte file /srv/x under
    a text/plain MIME table on 01 Jan 2024. -/
theorem c4_header_block_witness :
    (serve_file fsX guessPlain (get_current_date timeJan) sockAlways "/srv/x"
      "200 OK" "HTTP/1.1").header =
      some ("HTTP/1.1 200 OK\r\nServer: Python HTTP Server\r\nDate: Mon, 01 Jan 2024 00:00:00 GMT\r\nContent-type: text/plain\r\nContent-length: 2\r\n\r\n") := by
  rw [c4_header_block fsX guessPlain timeJan sockAlways "/srv/x" "200 OK"
    "HTTP/1.1" (by decide) (by decide)]
  decide

/-! ### Claim C5 — chunked body round-trip -/

/-- C5: when the file opens and every socket write succeeds, the body is
    streamed as chunks of at most 4096 bytes each (all nonempty, read until
    exhausted), and their concatenation is byte-identical to the file
    contents — in particular exactly N body bytes are transmitted for an
    N-byte file. -/
theorem c5_body_round_trip (fs : FS) (guess : String → Option String)
    (date : String) (sockOk : Nat → Bool) (path rc v : String)
    (hopen : fs.openOk path = true) (hsock : ∀ n, sockOk n = true) :
    ((serve_file fs guess date sockOk path rc v).body.flatten =
      fs.contents path) ∧
    ((serve_file fs guess date sockOk path rc v).body.flatten.length =
      (fs.contents path).length) ∧
    (∀ c ∈ (serve_file fs guess date sockOk path rc v).body,
      c ≠ [] ∧ c.length ≤ 4096) := by
  have hbody : (serve_file fs guess date sockOk path rc v).body =
      chunkify (fs.contents path) := by
    simp [serve_file, hopen, hsock 0, writeChunks_all sockOk hsock]
  refine ⟨?_, ?_, ?_⟩
  · rw [hbody]; exact chunkify_join (fs.contents path)
  · rw [hbody, chunkify_join (fs.contents path)]
  · intro c hc
    rw [hbody] at hc
    exact chunkify_mem (fs.contents path) c hc

/-- C5 witness: the two-byte file at /srv/x round-trips through the chunk
    loop unchanged. -/
theorem c5_body_round_trip_witness :
    (serve_file fsX guessNone "" sockAlways "/srv/x" "200 OK"
      "HTTP/1.1").body.flatten = [1, 2] := by
  rw [(c5_body_round_trip fsX guessNone "" sockAlways "/srv/x" "200 OK"
    "HTTP/1.1" (by decide) (fun _ => rfl)).1]
  decide

/-! ### Claim C6 — resource handling of the response writer -/

/-- C6 (code bug): the claim — and the try/except structure of serve_file
    itself — intend an open failure to be logged and swallowed, but the
    finally block runs error_file.close() with error_file never assigned, so
    serve_file raises (UnboundLocalError) out of the function.  Evaluating
    the embedded writer at such a failing input: nothing is written, no
    timeout is set, no handle exists to close, and the raised flag is set
    (the model of the escaping exception).  On paths where open succeeds the
    handle is closed on both normal completion and mid-stream write failure
    (fileClosed is true in both sock branches of serve_file). -/
theorem c6_open_failure_raises :
    serve_file fsClosed guessNone "" sockAlways "error/400.html"
      "400 BadRequest" "HTTP/1.1" =
      { pathArg := "error/400.html", header := none, body := [],
        timeoutSet := false, fileClosed := false, raised := true } := by
  decide

end WebServer

namespace WebServer

/-! ### Claim C8 — short request lines -/

/-- C8: whenever the request line splits into fewer than two tokens on the
    space separator of the wire grammar (METHOD SP TARGET), run responds
    with the BadRequest outcome carrying the raw line as its logged context,
    serves the 400 error asset, performs no HTTP/1.0 drain sleep, and closes
    the connection; the result is the explicit record below, which never
    consults the path resolver, the document root or the existence map. -/
theorem c8_short_request_line (fs : FS) (u : String → String)
    (g : String → Option String) (d : String) (s : Nat → Bool)
    (root proto rawLine : String)
    (h : (pySplit ' ' rawLine).length < 2) :
    run fs u g d s root proto rawLine =
      { outcome := Outcome.badRequest, context := rawLine,
        serve := serve_file fs g d s BAD_REQUEST "400 BadRequest" "HTTP/1.1",
        sleptDrain := false, closed := true } :=
  run_short fs u g d s root proto rawLine h

/-- C8 witness: the one-token line GET with its terminator. -/
theorem c8_short_request_line_witness :
    run fsClosed id guessNone "" sockAlways "/srv" "1.1" "GET\r\n" =
      { outcome := Outcome.badRequest, context := "GET\r\n",
        serve := serve_file fsClosed guessNone "" sockAlways BAD_REQUEST
          "400 BadRequest" "HTTP/1.1",
        sleptDrain := false, closed := true } :=
  c8_short_request_line fsClosed id guessNone "" sockAlways "/srv" "1.1"
    "GET\r\n" (by decide)

/-! ### Claim C2 — the method and extension gate -/

/-- C2: the OK outcome is reached only when the method token upper-cases to
    GET and the percent-decoded target has a supported extension
    (is_file_supported encodes the literal set pdf, jpeg, jpg, png, txt,
    gif, html, mp4, json, js, css and the empty extension,
    case-insensitively); whenever that conjunction fails the outcome is
    BadRequest regardless of the target, the filesystem or the root; and
    the MethodNotSupported outcome is unreachable for every input. -/
theorem c2_method_and_type_gate (fs : FS) (u : String → String)
    (g : String → Option String) (d : String) (s : Nat → Bool)
    (root proto rawLine : String) :
    ((run fs u g d s root proto rawLine).outcome = Outcome.ok →
      pyUpper ((pySplit ' ' rawLine).headD "") = "GET" ∧
      is_file_supported (u ((pySplit ' ' rawLine).getD 1 "")) = true) ∧
    (¬ (pyUpper ((pySplit ' ' rawLine).headD "") = "GET" ∧
        is_file_supported (u ((pySplit ' ' rawLine).getD 1 "")) = true) →
      (run fs u g d s root proto rawLine).outcome = Outcome.badRequest) ∧
    (run fs u g d s root proto rawLine).outcome ≠ Outcome.methodNotSupported := by
  by_cases hlen : (pySplit ' ' rawLine).length < 2
  · rw [run_short fs u g d s root proto rawLine hlen]
    refine ⟨?_, fun _ => rfl, ?_⟩ <;> simp
  · rw [run_two fs u g d s root proto rawLine hlen]
    by_cases hgate : (pyUpper ((pySplit ' ' rawLine).headD "") != "GET"
        || !is_file_supported (u ((pySplit ' ' rawLine).getD 1 ""))) = true
    · rw [handleRequest_gate_fail fs u g d s root proto _ _ hgate]
      refine ⟨?_, fun _ => rfl, ?_⟩ <;> simp
    · rw [Bool.not_eq_true] at hgate
      have hok := (gate_false_iff _ _).mp hgate
      refine ⟨fun _ => hok, fun hcon => absurd hok hcon, ?_⟩
      rcases hres : get_file_path fs.pathExists root
          (u ((pySplit ' ' rawLine).getD 1 "")) with _ | fp
      · rw [handleRequest_notFound fs u g d s root proto _ _ hgate hres]
        simp
      · rcases hrd : fs.readable fp with _ | _
        · rw [handleRequest_forbidden fs u g d s root proto _ _ fp hgate
            hres hrd]
          simp
        · rw [handleRequest_ok fs u g d s root proto _ _ fp hgate hres hrd]
          simp

/-- C2 witness: a POST for an existing, servable target is still
    BadRequest. -/
theorem c2_method_and_type_gate_witness :
    (run fsX id guessNone "" sockAlways "/srv" "1.1"
      "POST /x HTTP/1.1\r\n").outcome = Outcome.badRequest :=
  (c2_method_and_type_gate fsX id guessNone "" sockAlways "/srv" "1.1"
    "POST /x HTTP/1.1\r\n").2.1 (by decide)

end WebServer

namespace WebServer

/-! ### Claim C7 — trailing tokens of the request line -/

/-- C7 counterexample: the claim says a request line with the trailing
    VERSION token and the same line without it produce the same decoded
    target and outcome.  readline keeps the line terminator and run never
    strips it, so without a VERSION token the terminator stays glued to the
    target: GET /x HTTP/1.1 resolves /x and is served OK, while GET /x
    alone looks up the nonexistent path ending in the terminator and is
    NotFound. -/
theorem c7_counterexample :
    (run fsX id guessNone "" sockAlways "/srv" "1.1"
      "GET /x HTTP/1.1\r\n").outcome = Outcome.ok ∧
    (run fsX id guessNone "" sockAlways "/srv" "1.1"
      "GET /x\r\n").outcome = Outcome.notFound := by
  refine ⟨by decide, by decide⟩

/-- C7 (amended): only the first two space-separated tokens of the request
    line determine the handler result — two lines that agree on their first
    two tokens (both having at least two) produce identical results, so
    tokens beyond the second, the VERSION token included, are ignored.
    However, because the line terminator is never stripped, it attaches to
    the last token: dropping the VERSION token changes the second token
    itself and hence may change the decoded target and the outcome. -/
theorem c7_first_two_tokens_amended (fs : FS) (u : String → String)
    (g : String → Option String) (d : String) (s : Nat → Bool)
    (root proto l1 l2 : String)
    (h1 : 2 ≤ (pySplit ' ' l1).length) (h2 : 2 ≤ (pySplit ' ' l2).length)
    (ht : (pySplit ' ' l1).take 2 = (pySplit ' ' l2).take 2) :
    run fs u g d s root proto l1 = run fs u g d s root proto l2 := by
  obtain ⟨a, b, t1, he1⟩ := list_len2 _ h1
  obtain ⟨a2, b2, t2, he2⟩ := list_len2 _ h2
  rw [he1, he2] at ht
  simp only [List.take_succ_cons, List.take_zero, List.cons.injEq,
    and_true] at ht
  obtain ⟨ha, hb⟩ := ht
  have hlen1 : ¬ (pySplit ' ' l1).length < 2 := by rw [he1]; simp
  have hlen2 : ¬ (pySplit ' ' l2).length < 2 := by rw [he2]; simp
  rw [run_two fs u g d s root proto l1 hlen1,
    run_two fs u g d s root proto l2 hlen2, he1, he2]
  simp [ha, hb]

/-- C7 witness: a third token other than a version string is equally
    ignored — the two lines below give identical results. -/
theorem c7_first_two_tokens_amended_witness :
    run fsX id guessNone "" sockAlways "/srv" "1.1" "GET /x HTTP/1.1" =
      run fsX id guessNone "" sockAlways "/srv" "1.1" "GET /x extra" :=
  c7_first_two_tokens_amended fsX id guessNone "" sockAlways "/srv" "1.1"
    "GET /x HTTP/1.1" "GET /x extra" (by decide) (by decide) (by decide)

/-! ### Claim C9 — error assets and failure of the error path -/

/-- C9 counterexample: the error asset the 400 outcome is served from is
    the relative path error/400.html, resolved against the process working
    directory; it is not under the document root (here /srv) as the claim
    asserts. -/
theorem c9_counterexample :
    (run fsClosed id guessNone "" sockAlways "/srv" "1.1"
      "BAD\r\n").outcome = Outcome.badRequest ∧
    (run fsClosed id guessNone "" sockAlways "/srv" "1.1"
      "BAD\r\n").serve.pathArg = "error/400.html" ∧
    startsWithStr "/srv" "error/400.html" = false := by
  refine ⟨by decide, by decide, by decide⟩

/-- Shared shape of every non-OK branch record of the handler: the asset
    recorded by errorAsset is exactly the path handed to open, and when that
    asset cannot be opened nothing is written, the writer raises internally,
    and the connection is still closed. -/
theorem err_record_spec (fs : FS) (g : String → Option String) (d : String)
    (s : Nat → Bool) (o : Outcome) (ctx asset rc : String)
    (ha : errorAsset o = some asset) :
    errorAsset (RunResult.mk o ctx (serve_file fs g d s asset rc "HTTP/1.1")
        false true).outcome =
      some (RunResult.mk o ctx (serve_file fs g d s asset rc "HTTP/1.1")
        false true).serve.pathArg ∧
    (fs.openOk ((RunResult.mk o ctx (serve_file fs g d s asset rc
        "HTTP/1.1") false true).serve.pathArg) = false →
      (RunResult.mk o ctx (serve_file fs g d s asset rc "HTTP/1.1")
        false true).serve.header = none ∧
      (RunResult.mk o ctx (serve_file fs g d s asset rc "HTTP/1.1")
        false true).serve.body = [] ∧
      (RunResult.mk o ctx (serve_file fs g d s asset rc "HTTP/1.1")
        false true).serve.raised = true ∧
      (RunResult.mk o ctx (serve_file fs g d s asset rc "HTTP/1.1")
        false true).closed = true) := by
  refine ⟨by simpa [serve_file_pathArg] using ha, fun hopen => ?_⟩
  have hopen2 : fs.openOk asset = false := by
    simpa [serve_file_pathArg] using hopen
  simp [serve_file_open_fail fs g d s asset rc "HTTP/1.1" hopen2]

/-- C9 (amended): each StatusOutcome other than OK maps to exactly one
    well-known error-asset path — but that path is relative, resolved
    against the process working directory rather than placed under the
    document root — and distinct outcomes map to distinct assets; whenever
    the handler result is not OK, the asset of its outcome is exactly the
    path handed to open, and if that asset cannot be opened the writer
    raises internally (the handler catches it), nothing is written, and the
    connection still terminates cleanly: logged, closed, and with no
    further fallback response. -/
theorem c9_error_assets_amended (fs : FS) (u : String → String)
    (g : String → Option String) (d : String) (s : Nat → Bool)
    (root proto rawLine : String) :
    (∀ o1 o2 : Outcome, o1 ≠ Outcome.ok → o2 ≠ Outcome.ok →
      errorAsset o1 = errorAsset o2 → o1 = o2) ∧
    ((run fs u g d s root proto rawLine).outcome ≠ Outcome.ok →
      errorAsset (run fs u g d s root proto rawLine).outcome =
        some (run fs u g d s root proto rawLine).serve.pathArg ∧
      (fs.openOk ((run fs u g d s root proto rawLine).serve.pathArg) =
          false →
        (run fs u g d s root proto rawLine).serve.header = none ∧
        (run fs u g d s root proto rawLine).serve.body = [] ∧
        (run fs u g d s root proto rawLine).serve.raised = true ∧
        (run fs u g d s root proto rawLine).closed = true)) := by
  constructor
  · intro o1 o2 ho1 ho2 h12
    cases o1 <;> cases o2 <;>
      simp_all [errorAsset, BAD_REQUEST, FORBIDDEN, FILE_NOT_FOUND,
        METHOD_NOT_SUPPORTED]
  · intro hne
    by_cases hlen : (pySplit ' ' rawLine).length < 2
    · rw [run_short fs u g d s root proto rawLine hlen]
      exact err_record_spec fs g d s Outcome.badRequest rawLine BAD_REQUEST
        "400 BadRequest" rfl
    · rw [run_two fs u g d s root proto rawLine hlen] at hne ⊢
      by_cases hgate : (pyUpper ((pySplit ' ' rawLine).headD "") != "GET"
          || !is_file_supported (u ((pySplit ' ' rawLine).getD 1 ""))) = true
      · rw [handleRequest_gate_fail fs u g d s root proto _ _ hgate]
        exact err_record_spec fs g d s Outcome.badRequest _ BAD_REQUEST
          "400 BadRequest" rfl
      · rw [Bool.not_eq_true] at hgate
        rcases hres : get_file_path fs.pathExists root
            (u ((pySplit ' ' rawLine).getD 1 "")) with _ | fp
        · rw [handleRequest_notFound fs u g d s root proto _ _ hgate hres]
          exact err_record_spec fs g d s Outcome.notFound _ FILE_NOT_FOUND
            "404 FileNotFound" rfl
        · rcases hrd : fs.readable fp with _ | _
          · rw [handleRequest_forbidden fs u g d s root proto _ _ fp hgate
              hres hrd]
            exact err_record_spec fs g d s Outcome.forbidden _ FORBIDDEN
              "403 Forbidden" rfl
          · rw [handleRequest_ok fs u g d s root proto _ _ fp hgate hres
              hrd] at hne
            exact absurd rfl hne

/-- C9 witness: a NotFound outcome on the empty filesystem — the 404 asset
    recorded by errorAsset is exactly the path the writer tried to open. -/
theorem c9_error_assets_amended_witness :
    errorAsset (run fsClosed id guessNone "" sockAlways "/srv" "1.1"
        "GET /nope HTTP/1.1\r\n").outcome =
      some (run fsClosed id guessNone "" sockAlways "/srv" "1.1"
        "GET /nope HTTP/1.1\r\n").serve.pathArg :=
  ((c9_error_assets_amended fsClosed id guessNone "" sockAlways "/srv" "1.1"
    "GET /nope HTTP/1.1\r\n").2 (by decide)).1

end WebServer

namespace WebServer

/-! ### Claim C10 — protocol version on error paths -/

/-- Shared shape of every non-OK branch record for claim C10: the header,
    when emitted, opens with the literal HTTP/1.1 status-line prefix, the
    HTTP/1.0 settimeout never fires, and no drain sleep happens. -/
theorem c10_err_branch (fs : FS) (g : String → Option String) (d : String)
    (s : Nat → Bool) (o : Outcome) (ctx asset rc : String) :
    (∀ h, (RunResult.mk o ctx (serve_file fs g d s asset rc "HTTP/1.1")
        false true).serve.header = some h →
      ∃ rest, h = "HTTP/1.1" ++ " " ++ rest) ∧
    (RunResult.mk o ctx (serve_file fs g d s asset rc "HTTP/1.1")
      false true).serve.timeoutSet = false ∧
    (RunResult.mk o ctx (serve_file fs g d s asset rc "HTTP/1.1")
      false true).sleptDrain = false := by
  refine ⟨fun h hh =>
    serve_file_header_version fs g d s asset rc "HTTP/1.1" h hh, ?_, rfl⟩
  have := serve_file_timeoutSet fs g d s asset rc "HTTP/1.1"
  simp only [show ("HTTP/1.1" == "HTTP/1.0") = false from rfl,
    Bool.and_false] at this
  exact this

/-- C10: on the BadRequest, NotFound and Forbidden paths the status line is
    emitted with the literal protocol version HTTP/1.1 — the Python default
    argument of serve_file — regardless of the configured protocol, and
    neither the HTTP/1.0 idle-timeout call nor the post-response drain sleep
    ever happens there; conversely, whenever the timeout is set or the drain
    sleep happens, the outcome was OK and the configured version string was
    HTTP/1.0. -/
theorem c10_error_paths_literal_http11 (fs : FS) (u : String → String)
    (g : String → Option String) (d : String) (s : Nat → Bool)
    (root proto rawLine : String) :
    (((run fs u g d s root proto rawLine).outcome = Outcome.badRequest ∨
      (run fs u g d s root proto rawLine).outcome = Outcome.notFound ∨
      (run fs u g d s root proto rawLine).outcome = Outcome.forbidden) →
      (∀ h, (run fs u g d s root proto rawLine).serve.header = some h →
        ∃ rest, h = "HTTP/1.1" ++ " " ++ rest) ∧
      (run fs u g d s root proto rawLine).serve.timeoutSet = false ∧
      (run fs u g d s root proto rawLine).sleptDrain = false) ∧
    ((run fs u g d s root proto rawLine).serve.timeoutSet = true →
      (run fs u g d s root proto rawLine).outcome = Outcome.ok ∧
      "HTTP/" ++ proto = "HTTP/1.0") ∧
    ((run fs u g d s root proto rawLine).sleptDrain = true →
      (run fs u g d s root proto rawLine).outcome = Outcome.ok ∧
      "HTTP/" ++ proto = "HTTP/1.0") := by
  by_cases hlen : (pySplit ' ' rawLine).length < 2
  · rw [run_short fs u g d s root proto rawLine hlen]
    refine ⟨fun _ => c10_err_branch fs g d s Outcome.badRequest rawLine
      BAD_REQUEST "400 BadRequest", fun ht => ?_, fun hsl => ?_⟩
    · have ht2 : (serve_file fs g d s BAD_REQUEST "400 BadRequest"
          "HTTP/1.1").timeoutSet = true := ht
      rw [serve_file_timeoutSet] at ht2
      simp at ht2
    · exact absurd hsl (by simp)
  · rw [run_two fs u g d s root proto rawLine hlen]
    by_cases hgate : (pyUpper ((pySplit ' ' rawLine).headD "") != "GET"
        || !is_file_supported (u ((pySplit ' ' rawLine).getD 1 ""))) = true
    · rw [handleRequest_gate_fail fs u g d s root proto _ _ hgate]
      refine ⟨fun _ => c10_err_branch fs g d s Outcome.badRequest _
        BAD_REQUEST "400 BadRequest", fun ht => ?_, fun hsl => ?_⟩
      · have ht2 : (serve_file fs g d s BAD_REQUEST "400 BadRequest"
            "HTTP/1.1").timeoutSet = true := ht
        rw [serve_file_timeoutSet] at ht2
        simp at ht2
      · exact absurd hsl (by simp)
    · rw [Bool.not_eq_true] at hgate
      rcases hres : get_file_path fs.pathExists root
          (u ((pySplit ' ' rawLine).getD 1 "")) with _ | fp
      · rw [handleRequest_notFound fs u g d s root proto _ _ hgate hres]
        refine ⟨fun _ => c10_err_branch fs g d s Outcome.notFound _
          FILE_NOT_FOUND "404 FileNotFound", fun ht => ?_, fun hsl => ?_⟩
        · have ht2 : (serve_file fs g d s FILE_NOT_FOUND "404 FileNotFound"
              "HTTP/1.1").timeoutSet = true := ht
          rw [serve_file_timeoutSet] at ht2
          simp at ht2
        · exact absurd hsl (by simp)
      · rcases hrd : fs.readable fp with _ | _
        · rw [handleRequest_forbidden fs u g d s root proto _ _ fp hgate
            hres hrd]
          refine ⟨fun _ => c10_err_branch fs g d s Outcome.forbidden _
            FORBIDDEN "403 Forbidden", fun ht => ?_, fun hsl => ?_⟩
          · have ht2 : (serve_file fs g d s FORBIDDEN "403 Forbidden"
                "HTTP/1.1").timeoutSet = true := ht
            rw [serve_file_timeoutSet] at ht2
            simp at ht2
          · exact absurd hsl (by simp)
        · rw [handleRequest_ok fs u g d s root proto _ _ fp hgate hres hrd]
          refine ⟨fun hcon => ?_, fun ht => ?_, fun hsl => ?_⟩
          · rcases hcon with hcon | hcon | hcon <;> exact absurd hcon (by simp)
          · have ht2 : (serve_file fs g d s fp "200 OK"
                ("HTTP/" ++ proto)).timeoutSet = true := ht
            rw [serve_file_timeoutSet] at ht2
            simp only [Bool.and_eq_true, beq_iff_eq] at ht2
            exact ⟨rfl, ht2.2⟩
          · have hsl2 : (!(serve_file fs g d s fp "200 OK"
                ("HTTP/" ++ proto)).raised
                && ("HTTP/" ++ proto == "HTTP/1.0")) = true := hsl
            simp only [Bool.and_eq_true, beq_iff_eq] at hsl2
            exact ⟨rfl, hsl2.2⟩

/-- C10 witness: a POST under configured protocol 1.0 — the error path sets
    no timeout and sleeps no drain delay. -/
theorem c10_error_paths_literal_http11_witness :
    (run fsX id guessNone "" sockAlways "/srv" "1.0"
      "POST /x HTTP/1.1\r\n").serve.timeoutSet = false ∧
    (run fsX id guessNone "" sockAlways "/srv" "1.0"
      "POST /x HTTP/1.1\r\n").sleptDrain = false :=
  ((c10_error_paths_literal_http11 fsX id guessNone "" sockAlways "/srv"
    "1.0" "POST /x HTTP/1.1\r\n").1 (by decide)).2

end WebServer
